import Mathlib

/-!
Shallow embedding of `rclpy_cascade_lifecycle/cascade_lifecycle_node.py`
(class `CascadeLifecycleNode`), the coordinator of the cascading lifecycle
synchronization protocol.

Modelling choices:
* `self._activators` (a Python `list`) is a `List String`; appends and
  `list.remove` (first occurrence) are modelled exactly, so duplicates are
  representable just as Python allows them.
* `self._activators_state` (a Python `dict`) is an insertion-ordered
  association list with unique keys; subscripting a missing key raises
  `KeyError`, modelled with `Except PyErr`.
* The node's own lifecycle state is read by the code as the *string*
  `self._state_machine.current_state[1]` ("unknown", "unconfigured",
  "inactive", "active", ...); activator states carried in messages are the
  integer constants of `lifecycle_msgs.msg.State`.  Both representations are
  kept distinct, as in the source.
* Side effects (`trigger_configure` / `trigger_activate` /
  `trigger_deactivate`, publishing) are modelled as outputs: the list of
  requested transitions and the list of published messages.
-/

namespace CascadeLifecycle

/-- Integer state constants of `lifecycle_msgs.msg.State`. -/
def PRIMARY_STATE_UNKNOWN : Nat := 0

/-- Integer state constant `PRIMARY_STATE_UNCONFIGURED` of `lifecycle_msgs.msg.State`. -/
def PRIMARY_STATE_UNCONFIGURED : Nat := 1

/-- Integer state constant `PRIMARY_STATE_INACTIVE` of `lifecycle_msgs.msg.State`. -/
def PRIMARY_STATE_INACTIVE : Nat := 2

/-- Integer state constant `PRIMARY_STATE_ACTIVE` of `lifecycle_msgs.msg.State`. -/
def PRIMARY_STATE_ACTIVE : Nat := 3

/-- Integer state constant `PRIMARY_STATE_FINALIZED` of `lifecycle_msgs.msg.State`. -/
def PRIMARY_STATE_FINALIZED : Nat := 4

/-- Operation constant `ADD` of `cascade_lifecycle_msgs.msg.Activation`. -/
def ACTIVATION_ADD : Nat := 0

/-- Operation constant `REMOVE` of `cascade_lifecycle_msgs.msg.Activation`. -/
def ACTIVATION_REMOVE : Nat := 1

/-- Python exceptions that the embedded code can raise. -/
inductive PyErr where
  | keyError
  | valueError
deriving DecidableEq, Repr

/-- Lifecycle transitions the coordinator can request on its state machine
(`trigger_configure`, `trigger_activate`, `trigger_deactivate`). -/
inductive Transition where
  | configure
  | activate
  | deactivate
deriving DecidableEq, Repr

/-- A `cascade_lifecycle_msgs.msg.Activation` message. -/
structure ActivationMsg where
  operation_type : Nat
  activation : String
  activator : String
deriving DecidableEq, Repr

/-- A `cascade_lifecycle_msgs.msg.State` message. -/
structure StateMsg where
  node_name : String
  state : Nat
deriving DecidableEq, Repr

/-- The mutable fields of a `CascadeLifecycleNode`, plus the string name of
the current state of its wrapped lifecycle state machine
(`self._state_machine.current_state[1]`). -/
structure NodeState where
  node_name : String
  activators : List String
  activations : List String
  activators_state : List (String × Nat)
  current_state : String
deriving DecidableEq, Repr

/-- The state of a freshly constructed node: all registries empty
(`__init__` sets `_activators = []`, `_activations = []`,
`_activators_state = {}`). -/
def initNode (name : String) (cs : String) : NodeState :=
  { node_name := name
    activators := []
    activations := []
    activators_state := []
    current_state := cs }

/-- Python `key in dict` membership test. -/
def dictContains (d : List (String × Nat)) (k : String) : Bool :=
  d.any (fun p => p.1 == k)

/-- Python `dict[key]` subscript: the stored value, or `KeyError` if absent. -/
def dictGet (d : List (String × Nat)) (k : String) : Except PyErr Nat :=
  match d.find? (fun p => p.1 == k) with
  | some p => Except.ok p.2
  | none => Except.error PyErr.keyError

/-- Python `dict.pop(key)` / `del dict[key]` key removal (keys are unique by
construction, so dropping every binding of `k` removes exactly one). -/
def dictErase (d : List (String × Nat)) (k : String) : List (String × Nat) :=
  d.filter (fun p => p.1 != k)

/-- Python `dict[key] = v` when the key may or may not be present: update in
place, or append a new binding. -/
def dictSet (d : List (String × Nat)) (k : String) (v : Nat) : List (String × Nat) :=
  if dictContains d k then d.map (fun p => if p.1 == k then (k, v) else p)
  else d ++ [(k, v)]

/-- Python `list.remove(x)`: removes the first occurrence of `x`, raising
`ValueError` when `x` is not in the list. -/
def pyListRemove (xs : List String) (x : String) : Except PyErr (List String) :=
  if xs.contains x then Except.ok (xs.erase x) else Except.error PyErr.valueError

/-- Python `==` applied to a `str` on the left and an `int` on the right:
cross-type equality in Python never falls through to a conversion and is
always `False`.  The source compares the *string* current state with the
*integer* activator state at `timer_callback` line 191. -/
def pyEqStrNat (_ : String) (_ : Nat) : Bool := false

/-- `update_state` (lines 153-174): the cascade decision function.  Folds over
the activator-state dict exactly like the `for` loop, then dispatches on the
string name of the current state.  Returns the requested transition, if any. -/
def update_state (current_state : String) (astate : List (String × Nat)) :
    Option Transition :=
  let parent_inactive :=
    astate.foldl (fun acc p => acc || (p.2 == PRIMARY_STATE_INACTIVE)) false
  let parent_active :=
    astate.foldl (fun acc p => acc || (p.2 == PRIMARY_STATE_ACTIVE)) false
  if current_state == "unknown" then
    if parent_active || parent_inactive then some Transition.configure else none
  else if current_state == "unconfigured" then
    if parent_active || parent_inactive then some Transition.configure else none
  else if current_state == "inactive" then
    if parent_active then some Transition.activate else none
  else if current_state == "active" then
    if !parent_active && parent_inactive then some Transition.deactivate else none
  else none

/-- `activations_callback` (lines 46-67): the inbound relationship handler.
Returns the updated node state and the transitions it requested, or the
Python exception it raised.  Note the source guards the REMOVE branch with
`msg.activator not in self._activators` (line 54). -/
def activations_callback (s : NodeState) (msg : ActivationMsg) :
    Except PyErr (NodeState × List Transition) :=
  if msg.operation_type == ACTIVATION_ADD then
    if msg.activation == s.node_name then
      let activators' := s.activators ++ [msg.activator]
      let astate' :=
        if dictContains s.activators_state msg.activator then s.activators_state
        else s.activators_state ++ [(msg.activator, PRIMARY_STATE_UNKNOWN)]
      Except.ok ({ s with activators := activators', activators_state := astate' }, [])
    else Except.ok (s, [])
  else if msg.operation_type == ACTIVATION_REMOVE then
    if msg.activation == s.node_name && !(s.activators.contains msg.activator) then
      match dictGet s.activators_state msg.activator with
      | Except.error e => Except.error e
      | Except.ok remover_state =>
        match pyListRemove s.activators msg.activator with
        | Except.error e => Except.error e
        | Except.ok activators' =>
          let astate' :=
            if dictContains s.activators_state msg.activator then
              dictErase s.activators_state msg.activator
            else s.activators_state
          let s' := { s with activators := activators', activators_state := astate' }
          if remover_state == PRIMARY_STATE_ACTIVE then
            let any_other_active :=
              astate'.foldl (fun acc p => acc || (p.2 == PRIMARY_STATE_ACTIVE)) false
            if !any_other_active then Except.ok (s', [Transition.deactivate])
            else Except.ok (s', [])
          else Except.ok (s', [])
    else Except.ok (s, [])
  else Except.ok (s, [])

/-- `states_callback` (lines 69-73): the inbound state handler. -/
def states_callback (s : NodeState) (msg : StateMsg) : NodeState × List Transition :=
  if dictContains s.activators_state msg.node_name && msg.node_name != s.node_name then
    match dictGet s.activators_state msg.node_name with
    | Except.error _ => (s, [])
    | Except.ok stored =>
      if stored != msg.state then
        let astate' := dictSet s.activators_state msg.node_name msg.state
        let s' := { s with activators_state := astate' }
        (s', (update_state s'.current_state s'.activators_state).toList)
      else (s, [])
  else (s, [])

/-- `add_activation` (lines 75-83): appends the target to `self._activations`
and publishes an ADD relationship message, unless the target is this node. -/
def add_activation (s : NodeState) (name : String) :
    NodeState × List ActivationMsg :=
  if name != s.node_name then
    ({ s with activations := s.activations ++ [name] },
     [{ operation_type := ACTIVATION_ADD, activation := name, activator := s.node_name }])
  else (s, [])

/-- `remove_activation` (lines 85-93): *appends* the target to
`self._activations` (the source appends, it does not remove) and publishes a
REMOVE relationship message, unless the target is this node. -/
def remove_activation (s : NodeState) (name : String) :
    NodeState × List ActivationMsg :=
  if name != s.node_name then
    ({ s with activations := s.activations ++ [name] },
     [{ operation_type := ACTIVATION_REMOVE, activation := name, activator := s.node_name }])
  else (s, [])

/-- `clear_activation` (lines 95-97): iterates `self._activators` (the
*inbound* activator list) and calls `remove_activation` on each entry.
Returns the final state and all published messages. -/
def clear_activation (s : NodeState) : NodeState × List ActivationMsg :=
  s.activators.foldl
    (fun acc a =>
      let r := remove_activation acc.1 a
      (r.1, acc.2 ++ r.2))
    (s, [])

/-- The `while True` loop of `timer_callback` (lines 184-198).  The Python
list iterator is modelled by its index `i` into the *current* list: `next(it)`
yields `activators[i]` and advances the index; mutating the list through
`self._activators.remove` shifts the elements under the live iterator, which
is why the recursive call passes the shrunken list with `i` advanced by one.
The `else` branch's bare `it.__next__()` consumes an element without
examining it (index advances by two in total).  `visited` is ghost
instrumentation recording the element bound by `node_name = next(it)` in each
iteration; it does not influence the computation.  Uncaught exceptions
(`KeyError` from the dict subscript) abort the whole loop, as in Python,
where only `StopIteration` is caught. -/
def timer_loop (nodes : List String) (nspref : String) (cs : String)
    (activators : List String) (astate : List (String × Nat)) (i : Nat)
    (visited : List String) (trig : List Transition) :
    Except PyErr (List String × List (String × Nat) × List String × List Transition) :=
  if h : i < activators.length then
    let node_name := activators.get ⟨i, h⟩
    if nodes.contains (nspref ++ node_name) then
      match dictGet astate node_name with
      | Except.error e => Except.error e
      | Except.ok st =>
        let trig' :=
          if pyEqStrNat cs st then trig ++ (update_state cs astate).toList else trig
        timer_loop nodes nspref cs (activators.erase node_name)
          (dictErase astate node_name) (i + 1) (visited ++ [node_name]) trig'
    else
      timer_loop nodes nspref cs activators astate (i + 2) (visited ++ [node_name]) trig
  else
    Except.ok (activators, astate, visited, trig)
termination_by activators.length - i
decreasing_by
  · have hm : activators.get ⟨i, h⟩ ∈ activators := activators.get_mem i h
    have := List.length_erase_of_mem hm
    omega
  · omega

/-- `timer_callback` (lines 176-214), parameterised by the live-node set
returned by `get_node_names()` and the namespace returned by
`get_namespace()`.  Note line 189 performs `self._activators.remove` *before*
line 191 subscripts `self._activators_state`, and the source removes an
activator when its fully-qualified name IS in the live set.  Returns the
updated node state, the published heartbeat `StateMsg`, the ghost visit list,
the transitions requested inside the loop, and the decision of the final
unconditional `update_state()` call (line 214). -/
def timer_callback (s : NodeState) (nodes : List String) (ns : String) :
    Except PyErr (NodeState × StateMsg × List String × List Transition × Option Transition) :=
  let nspref := if ns != "/" then ns ++ "/" else ns
  match timer_loop nodes nspref s.current_state s.activators s.activators_state 0 [] [] with
  | Except.error e => Except.error e
  | Except.ok (activators', astate', visited, trig) =>
    let msgState :=
      if s.current_state == "unknown" then PRIMARY_STATE_UNKNOWN
      else if s.current_state == "unconfigured" then PRIMARY_STATE_UNCONFIGURED
      else if s.current_state == "inactive" then PRIMARY_STATE_INACTIVE
      else if s.current_state == "active" then PRIMARY_STATE_ACTIVE
      else PRIMARY_STATE_UNKNOWN
    let s' := { s with activators := activators', activators_state := astate' }
    Except.ok (s', { node_name := s.node_name, state := msgState }, visited, trig,
      update_state s.current_state astate')

/-- Sequential handling of a list of inbound Activation messages; the first
raised exception aborts the run, as an uncaught Python exception would. -/
def handleMsgs : NodeState → List ActivationMsg →
    Except PyErr (NodeState × List Transition)
  | s, [] => Except.ok (s, [])
  | s, m :: ms =>
    match activations_callback s m with
    | Except.error e => Except.error e
    | Except.ok (s', ts) =>
      match handleMsgs s' ms with
      | Except.error e => Except.error e
      | Except.ok (s'', ts') => Except.ok (s'', ts ++ ts')

/-- Existence of an activator whose recorded state is `Active` (the spec's
`anyActive` in section 4.2). -/
def anyActive (snap : List (String × Nat)) : Bool :=
  snap.any (fun p => p.2 == PRIMARY_STATE_ACTIVE)

/-- Existence of an activator whose recorded state is `Inactive` (the spec's
`anyInactive` in section 4.2). -/
def anyInactive (snap : List (String × Nat)) : Bool :=
  snap.any (fun p => p.2 == PRIMARY_STATE_INACTIVE)

/-- The Cascade Decision Engine exactly as worded by the spec (section 4.2):
configure when the current state is Unconfigured or Unknown and some
activator is Active or Inactive; activate when Inactive and some activator is
Active; deactivate when Active, no activator Active, and some activator
Inactive; otherwise no action.  Defined from the spec's words, to be compared
with `update_state`, which is translated from the source. -/
def cascadeDecisionSpec (cs : String) (snap : List (String × Nat)) :
    Option Transition :=
  if (cs == "unconfigured" || cs == "unknown") && (anyActive snap || anyInactive snap) then
    some Transition.configure
  else if cs == "inactive" && anyActive snap then some Transition.activate
  else if cs == "active" && !anyActive snap && anyInactive snap then
    some Transition.deactivate
  else none

/-- The ActivatorRecord invariant of the spec (section 3): every tracked
activator has a record in the state map, every record belongs to a tracked
activator, and there is exactly one record per activator. -/
def registryInvariant (s : NodeState) : Prop :=
  (∀ a ∈ s.activators, dictContains s.activators_state a = true) ∧
  (∀ p ∈ s.activators_state, p.1 ∈ s.activators) ∧
  (s.activators_state.map Prod.fst).Nodup

/-- Transitions requested by a handler run.  A run aborted by an exception
requested none: in the source the exception is raised before any
`trigger_deactivate` call is reached. -/
def triggersOf (r : Except PyErr (NodeState × List Transition)) : List Transition :=
  match r with
  | Except.ok p => p.2
  | Except.error _ => []

end CascadeLifecycle

namespace CascadeLifecycle

/-- Folding disjunctions over a list, as the source's `for` loops do, computes
the same boolean as `List.any`. -/
theorem foldl_or_eq_any (f : String × Nat → Bool) (l : List (String × Nat)) (b : Bool) :
    l.foldl (fun acc p => acc || f p) b = (b || l.any f) := by
  induction l generalizing b with
  | nil => simp
  | cons x xs ih => simp [ih, Bool.or_assoc]

end CascadeLifecycle

namespace CascadeLifecycle

/-- C6: the cascade decision function requests configure when the current
state is Unconfigured or Unknown and some activator is Active or Inactive;
activate when Inactive and some activator is Active; deactivate when Active,
no activator Active, and some activator Inactive; and nothing in every other
case: the source's `update_state` coincides with the spec's decision table on
every current state and every activator-state snapshot. -/
theorem update_state_eq_cascadeDecisionSpec (cs : String) (snap : List (String × Nat)) :
    update_state cs snap = cascadeDecisionSpec cs snap := by
  unfold update_state cascadeDecisionSpec anyActive anyInactive
  simp only [foldl_or_eq_any, Bool.false_or]
  cases hA : snap.any (fun p => p.2 == PRIMARY_STATE_ACTIVE) <;>
    cases hI : snap.any (fun p => p.2 == PRIMARY_STATE_INACTIVE) <;>
    by_cases h1 : cs = "unknown" <;> by_cases h2 : cs = "unconfigured" <;>
    by_cases h3 : cs = "inactive" <;> by_cases h4 : cs = "active" <;>
    simp_all

end CascadeLifecycle

namespace CascadeLifecycle

/-- C1: the claim says a reconciler tick removes exactly the activators absent
from the live-node set and leaves live ones untouched.  The source does the
opposite: with activator `B` tracked in state Active, a tick whose discovery
result contains `/B` (B alive) deletes B's relationship and record, while a
tick whose discovery result is empty (B dead) leaves B tracked. -/
theorem timer_removes_live_and_keeps_dead_activator :
    timer_callback
        (⟨"A", ["B"], [], [("B", PRIMARY_STATE_ACTIVE)], "active"⟩ : NodeState)
        ["/B"] "/" =
      Except.ok ((⟨"A", [], [], [], "active"⟩ : NodeState),
        (⟨"A", PRIMARY_STATE_ACTIVE⟩ : StateMsg), ["B"], [], none) ∧
    timer_callback
        (⟨"A", ["B"], [], [("B", PRIMARY_STATE_ACTIVE)], "active"⟩ : NodeState)
        [] "/" =
      Except.ok ((⟨"A", ["B"], [], [("B", PRIMARY_STATE_ACTIVE)], "active"⟩ : NodeState),
        (⟨"A", PRIMARY_STATE_ACTIVE⟩ : StateMsg), ["B"], [], none) := by
  constructor <;>
    simp [timer_callback, timer_loop, dictGet, dictErase, update_state, pyEqStrNat,
      PRIMARY_STATE_ACTIVE, PRIMARY_STATE_INACTIVE, PRIMARY_STATE_UNKNOWN,
      PRIMARY_STATE_UNCONFIGURED, List.erase]

/-- C2: the claim says an inbound REMOVE whose activator is untracked is a
silent no-op.  The source's inverted guard (line 54) sends exactly the
untracked case into the removal branch, where subscripting the state dict
raises `KeyError`: handling REMOVE of untracked `B` on a fresh node aborts
with an exception instead of being a no-op. -/
theorem remove_untracked_raises_keyError :
    activations_callback (initNode "A" "unconfigured")
        (⟨ACTIVATION_REMOVE, "A", "B"⟩ : ActivationMsg) =
      Except.error PyErr.keyError := by rfl

/-- C3: the claim says an inbound REMOVE of a tracked activator whose recorded
state is Active removes it and requests deactivate when no other activator is
Active.  The source's inverted guard (line 54) skips the whole branch for a
tracked activator: the registry is unchanged and no transition is requested. -/
theorem remove_tracked_active_is_noop :
    activations_callback
        (⟨"A", ["B"], [], [("B", PRIMARY_STATE_ACTIVE)], "active"⟩ : NodeState)
        (⟨ACTIVATION_REMOVE, "A", "B"⟩ : ActivationMsg) =
      Except.ok ((⟨"A", ["B"], [], [("B", PRIMARY_STATE_ACTIVE)], "active"⟩ : NodeState),
        []) := by rfl

/-- C4: the claim says the liveness loop visits every activator tracked at the
start of the tick exactly once.  With activators `[B, C]` both alive, the
in-place `remove` of `B` shifts the list under the live iterator, so the next
`next(it)` already raises `StopIteration`: only `B` is ever bound by
`node_name = next(it)` (ghost visit list `["B"]`), and `C` is never examined
even though it was tracked at the start of the tick. -/
theorem timer_loop_skips_second_entry :
    timer_callback
        (⟨"A", ["B", "C"], [],
          [("B", PRIMARY_STATE_ACTIVE), ("C", PRIMARY_STATE_ACTIVE)], "active"⟩ : NodeState)
        ["/B", "/C"] "/" =
      Except.ok ((⟨"A", ["C"], [], [("C", PRIMARY_STATE_ACTIVE)], "active"⟩ : NodeState),
        (⟨"A", PRIMARY_STATE_ACTIVE⟩ : StateMsg), ["B"], [], none) := by
  simp [timer_callback, timer_loop, dictGet, dictErase, update_state, pyEqStrNat,
    PRIMARY_STATE_ACTIVE, PRIMARY_STATE_INACTIVE, PRIMARY_STATE_UNKNOWN,
    PRIMARY_STATE_UNCONFIGURED, List.erase]

/-- C5: the claim says an ADD followed by a REMOVE for the same
(target, activator) pair leaves the registry with the activator absent.  In
the source, after ADD of `B` the REMOVE guard (line 54) fails because `B` IS
tracked, so the REMOVE is a no-op and `B` stays present. -/
theorem add_then_remove_leaves_activator_present :
    handleMsgs (initNode "A" "unconfigured")
        [(⟨ACTIVATION_ADD, "A", "B"⟩ : ActivationMsg),
         (⟨ACTIVATION_REMOVE, "A", "B"⟩ : ActivationMsg)] =
      Except.ok ((⟨"A", ["B"], [], [("B", PRIMARY_STATE_UNKNOWN)],
        "unconfigured"⟩ : NodeState), []) := by rfl

/-- C7: the claim says `clear_activation` issues a REMOVE for exactly every
target in this node's outgoing-activation set.  The source iterates
`self._activators` (the inbound activator list) instead: after
`add_activation("B")` the outgoing list `_activations` is `["B"]` and the
inbound list is empty, yet `clear_activation` publishes nothing. -/
theorem clear_activation_ignores_outgoing_set :
    (add_activation (initNode "A" "unconfigured") "B").1.activations = ["B"] ∧
    clear_activation (add_activation (initNode "A" "unconfigured") "B").1 =
      ((add_activation (initNode "A" "unconfigured") "B").1, []) := by
  constructor <;> rfl

/-- C8 counterexample: the claim says an inbound ADD whose target and
activator both equal this node leaves the registry unchanged; at the concrete
input (fresh node `A`, ADD with activation `A` and activator `A`) the
registry does change. -/
theorem self_add_changes_registry :
    ¬ ((activations_callback (initNode "A" "unconfigured")
          (⟨ACTIVATION_ADD, "A", "A"⟩ : ActivationMsg)).toOption.map
        (fun p => (p.1.activators, p.1.activators_state)) =
      some ((initNode "A" "unconfigured").activators,
        (initNode "A" "unconfigured").activators_state)) := by decide

/-- C8 (amended): an inbound ADD whose target and activator both equal this
node is recorded like any other activation: the node's own name is appended
to the activator list and, when absent, a record initialized to Unknown is
created; self-exclusion exists only on the publishing side
(`add_activation`). -/
theorem self_add_recorded (s : NodeState) (m : ActivationMsg)
    (h1 : m.operation_type = ACTIVATION_ADD) (h2 : m.activation = s.node_name)
    (h3 : m.activator = s.node_name) :
    activations_callback s m =
      Except.ok ({ s with
        activators := s.activators ++ [s.node_name],
        activators_state :=
          if dictContains s.activators_state s.node_name then s.activators_state
          else s.activators_state ++ [(s.node_name, PRIMARY_STATE_UNKNOWN)] }, []) := by
  unfold activations_callback
  rw [h1, h2, h3]
  simp

/-- Witness for the amended C8 theorem at a concrete input. -/
theorem self_add_recorded_witness :
    activations_callback (initNode "A" "unconfigured")
        (⟨ACTIVATION_ADD, "A", "A"⟩ : ActivationMsg) =
      Except.ok ({ initNode "A" "unconfigured" with
        activators := (initNode "A" "unconfigured").activators ++ ["A"],
        activators_state :=
          if dictContains (initNode "A" "unconfigured").activators_state "A" then
            (initNode "A" "unconfigured").activators_state
          else (initNode "A" "unconfigured").activators_state ++
            [("A", PRIMARY_STATE_UNKNOWN)] }, []) :=
  self_add_recorded (initNode "A" "unconfigured")
    (⟨ACTIVATION_ADD, "A", "A"⟩ : ActivationMsg) rfl rfl rfl

/-- C9: the claim says every registry-mutating operation preserves the
invariant that each tracked activator has exactly one record, removed
together with its edge.  Because the inbound ADD handler appends to the
activator list unconditionally, two ADDs of `B` yield the list `[B, B]` with
one record; the next tick with `B` alive then removes one list entry but
deletes the record, leaving `B` tracked with no record: the tick turns an
invariant-satisfying reachable state into one violating the invariant. -/
theorem timer_breaks_registry_invariant :
    handleMsgs (initNode "A" "unconfigured")
        [(⟨ACTIVATION_ADD, "A", "B"⟩ : ActivationMsg),
         (⟨ACTIVATION_ADD, "A", "B"⟩ : ActivationMsg)] =
      Except.ok ((⟨"A", ["B", "B"], [], [("B", PRIMARY_STATE_UNKNOWN)],
        "unconfigured"⟩ : NodeState), []) ∧
    registryInvariant
      (⟨"A", ["B", "B"], [], [("B", PRIMARY_STATE_UNKNOWN)], "unconfigured"⟩ : NodeState) ∧
    timer_callback
        (⟨"A", ["B", "B"], [], [("B", PRIMARY_STATE_UNKNOWN)], "unconfigured"⟩ : NodeState)
        ["/B"] "/" =
      Except.ok ((⟨"A", ["B"], [], [], "unconfigured"⟩ : NodeState),
        (⟨"A", PRIMARY_STATE_UNCONFIGURED⟩ : StateMsg), ["B"], [], none) ∧
    ¬ registryInvariant (⟨"A", ["B"], [], [], "unconfigured"⟩ : NodeState) := by
  refine ⟨by rfl, by unfold registryInvariant; decide, ?_,
    by unfold registryInvariant; decide⟩
  simp [timer_callback, timer_loop, dictGet, dictErase, update_state, pyEqStrNat,
    PRIMARY_STATE_ACTIVE, PRIMARY_STATE_INACTIVE, PRIMARY_STATE_UNKNOWN,
    PRIMARY_STATE_UNCONFIGURED, List.erase]

/-- C10: a node with an empty activator registry never auto-requests a
transition: the decision engine returns no action on an empty snapshot, and
handling any inbound Activation message on an empty registry requests no
transition either (the REMOVE edge case cannot fire). -/
theorem empty_registry_requests_no_transition (s : NodeState) (m : ActivationMsg)
    (h1 : s.activators = []) (h2 : s.activators_state = []) :
    update_state s.current_state s.activators_state = none ∧
    triggersOf (activations_callback s m) = [] := by
  constructor
  · rw [h2]
    unfold update_state
    simp
  · unfold activations_callback
    rw [h1, h2]
    by_cases hA : (m.operation_type == ACTIVATION_ADD) = true
    · simp only [hA, if_true]
      split <;> simp [triggersOf]
    · simp only [hA, if_false, Bool.false_eq_true]
      by_cases hR : (m.operation_type == ACTIVATION_REMOVE) = true
      · simp only [hA, hR, if_false, if_true, Bool.false_eq_true]
        split
        · simp [dictGet, triggersOf]
        · simp [triggersOf]
      · simp [hA, hR, triggersOf]

/-- Witness for the C10 theorem at a concrete input. -/
theorem empty_registry_requests_no_transition_witness :
    update_state (initNode "A" "unconfigured").current_state
        (initNode "A" "unconfigured").activators_state = none ∧
    triggersOf (activations_callback (initNode "A" "unconfigured")
        (⟨ACTIVATION_REMOVE, "A", "C"⟩ : ActivationMsg)) = [] :=
  empty_registry_requests_no_transition (initNode "A" "unconfigured")
    (⟨ACTIVATION_REMOVE, "A", "C"⟩ : ActivationMsg) rfl rfl

end CascadeLifecycle
